import Mathlib

/-!
Shallow embedding of `fust-orm` (`src/lib.rs`): a minimal data-access layer
exposing a `QueryBuilder` (table, projected columns, equality filters) that
serializes to SQL text plus positional parameters, and a `Database` handle
whose `connect` wraps a driver pool and whose `execute` runs a built query
and decodes each result cell according to the column's declared type name.

Rust strings become `String`, vectors become `List`, fallible paths become
`Except String`/`Except DatabaseError`.  The sqlx driver and the Python
runtime are external collaborators: they are modelled as explicit function
arguments (`driver`) and as plain Lean data (`SqlValue` for a stored SQLite
cell, `PyValue` for the dynamic Python-side value, an association list with
insert-or-update semantics for `PyDict`).
-/

/-- The error taxonomy of `enum DatabaseError` in `src/lib.rs`:
`ConnectionError`, `QueryError`, `PoolError`, each carrying a message. -/
inductive DatabaseError where
  | connectionError (msg : String)
  | queryError (msg : String)
  | poolError (msg : String)
deriving DecidableEq, Repr

/-- The `QueryBuilder` struct of `src/lib.rs`: target table, projected
columns, and the appended equality filters (`where_clauses`). -/
structure QueryBuilder where
  table : String
  columns : List String
  where_clauses : List (String × String)
deriving DecidableEq, Repr

/-- `QueryBuilder::select(table, columns)`: a descriptor with no filters. -/
def QueryBuilder.select (table : String) (columns : List String) : QueryBuilder :=
  ⟨table, columns, []⟩

/-- `QueryBuilder::where_(&mut self, column, value)`: pushes the pair onto
`self.where_clauses`, then returns `self.clone()`.  The embedding returns the
pair (mutated receiver, returned clone); both are the updated state. -/
def QueryBuilder.where_ (self : QueryBuilder) (column value : String) :
    QueryBuilder × QueryBuilder :=
  let self2 : QueryBuilder :=
    ⟨self.table, self.columns, self.where_clauses ++ [(column, value)]⟩
  (self2, self2)

/-- The body of the `map` closure in `QueryBuilder::build`: iterating the
filters left to right, each step pushes the value onto `params` and yields
the condition string `"{col} = ?"`.  Returns (final params, conditions). -/
def buildConditions : List (String × String) → List String →
    List String × List String
  | [], params => (params, [])
  | (col, val) :: rest, params =>
      let r := buildConditions rest (params ++ [val])
      (r.1, (col ++ " = ?") :: r.2)

/-- `QueryBuilder::build(&self)`: joins columns with `", "`, emits
`"SELECT {cols} FROM {table}"`, and if filters exist appends `" WHERE "`
and the conditions joined with `" AND "`, collecting params in order. -/
def QueryBuilder.build (self : QueryBuilder) : String × List String :=
  let cols := String.intercalate ", " self.columns
  let sql := "SELECT " ++ cols ++ " FROM " ++ self.table
  if self.where_clauses.isEmpty then
    (sql, [])
  else
    let r := buildConditions self.where_clauses []
    (sql ++ " WHERE " ++ String.intercalate " AND " r.2, r.1)

/-- State-passing view of `QueryBuilder::build(&self)`.  The Rust method
takes `&self` (a shared borrow of a struct with no interior mutability), so
the receiver after the call is the receiver before it: the embedding
threads the receiver explicitly and returns it unchanged. -/
def QueryBuilder.buildSt (self : QueryBuilder) :
    (String × List String) × QueryBuilder :=
  let cols := String.intercalate ", " self.columns
  let sql := "SELECT " ++ cols ++ " FROM " ++ self.table
  if self.where_clauses.isEmpty then
    ((sql, []), self)
  else
    let r := buildConditions self.where_clauses []
    ((sql ++ " WHERE " ++ String.intercalate " AND " r.2, r.1), self)

/-- Chaining `whereEqual` calls builder-style: each call is chained on the
value `where_` returns (the clone of the mutated receiver). -/
def chainWhere (d : QueryBuilder) (fs : List (String × String)) : QueryBuilder :=
  fs.foldl (fun acc p => (QueryBuilder.where_ acc p.1 p.2).2) d

/-- A stored SQLite cell value (the driver-side dynamic value). -/
inductive SqlValue where
  | null
  | text (s : String)
  | int (i : Int)
  | real (r : Float)
  | blob (b : List UInt8)

/-- A Python-side dynamic value: what a decoded cell becomes
(`Option<T>.into_pyobject`, with `None` mapping to Python `None`). -/
inductive PyValue where
  | none
  | str (s : String)
  | int (i : Int)
  | float (r : Float)
  | bytes (b : List UInt8)

/-- One result-set cell together with its column metadata: the column name
(`col.name()`), the declared type name (`col.type_info().name()`), and the
stored value. -/
structure Column where
  name : String
  typeName : String
  value : SqlValue

/-- `row.try_get::<Option<String>, _>(i)`: `Ok(None)` on SQL NULL,
`Ok(Some s)` on a stored text, a decode error otherwise. -/
def tryGetText : SqlValue → Except String (Option String)
  | SqlValue.null => Except.ok Option.none
  | SqlValue.text s => Except.ok (Option.some s)
  | _ => Except.error "mismatched types"

/-- `row.try_get::<Option<i64>, _>(i)`. -/
def tryGetInt : SqlValue → Except String (Option Int)
  | SqlValue.null => Except.ok Option.none
  | SqlValue.int i => Except.ok (Option.some i)
  | _ => Except.error "mismatched types"

/-- `row.try_get::<Option<f64>, _>(i)`. -/
def tryGetReal : SqlValue → Except String (Option Float)
  | SqlValue.null => Except.ok Option.none
  | SqlValue.real r => Except.ok (Option.some r)
  | _ => Except.error "mismatched types"

/-- `row.try_get::<Option<Vec<u8>>, _>(i)`. -/
def tryGetBlob : SqlValue → Except String (Option (List UInt8))
  | SqlValue.null => Except.ok Option.none
  | SqlValue.blob b => Except.ok (Option.some b)
  | _ => Except.error "mismatched types"

/-- `Option<T>.into_pyobject`: `None` becomes Python `None`. -/
def pyOfOption {α : Type} (f : α → PyValue) : Option α → PyValue
  | Option.some a => f a
  | Option.none => PyValue.none

/-- The per-cell `match col.type_info().name()` branch of
`Database::execute`: the decode branch is chosen by the declared type name;
any name outside TEXT/INTEGER/REAL/BLOB yields Python `None`. -/
def decodeCell (c : Column) : Except String PyValue :=
  match c.typeName with
  | "TEXT" => (tryGetText c.value).map (pyOfOption PyValue.str)
  | "INTEGER" => (tryGetInt c.value).map (pyOfOption PyValue.int)
  | "REAL" => (tryGetReal c.value).map (pyOfOption PyValue.float)
  | "BLOB" => (tryGetBlob c.value).map (pyOfOption PyValue.bytes)
  | _ => Except.ok PyValue.none

/-- `PyDict::set_item`: insertion-ordered dictionary update — an existing
key keeps its position and gets the new value, a new key is appended. -/
def setItem : List (String × PyValue) → String → PyValue →
    List (String × PyValue)
  | [], k, v => [(k, v)]
  | p :: rest, k, v =>
      if p.1 = k then (k, v) :: rest else p :: setItem rest k v

/-- `PyDict` key lookup (Python `dict[k]`): the value stored under a key. -/
def lookupKey (k : String) : List (String × PyValue) → Option PyValue
  | [] => Option.none
  | p :: rest => if p.1 = k then Option.some p.2 else lookupKey k rest

/-- The inner `for (i, col) in row.columns()` loop of `Database::execute`,
threading the `PyDict` under construction; a decode error aborts the loop
(the `?` operator). -/
def decodeRowAux (dict : List (String × PyValue)) :
    List Column → Except String (List (String × PyValue))
  | [] => Except.ok dict
  | c :: rest =>
      match decodeCell c with
      | Except.error e => Except.error e
      | Except.ok v => decodeRowAux (setItem dict c.name v) rest

/-- Decoding one row into a `DynamicRecord`, starting from an empty dict. -/
def decodeRow (row : List Column) : Except String (List (String × PyValue)) :=
  decodeRowAux [] row

/-- The outer `for row in rows` loop of `Database::execute`: decodes every
row, aborting the whole loop on the first error. -/
def decodeRows : List (List Column) →
    Except String (List (List (String × PyValue)))
  | [] => Except.ok []
  | row :: rest =>
      match decodeRow row with
      | Except.error e => Except.error e
      | Except.ok r =>
          match decodeRows rest with
          | Except.error e => Except.error e
          | Except.ok rs => Except.ok (r :: rs)

/-- The sqlx pool handle, opaque to this layer. -/
structure SqlitePool where
  poolId : Nat
deriving DecidableEq, Repr

/-- The `Database` pyclass: owns one shared pool. -/
structure Database where
  pool : SqlitePool
deriving DecidableEq, Repr

/-- `Database::connect(db_path)`: asks the driver
(`sqlx::SqlitePool::connect`) for a pool; a driver failure is mapped to
`ConnectionError` with the driver message, success wraps the pool. -/
def Database.connect (db_path : String)
    (driver : String → Except String SqlitePool) : Except DatabaseError Database :=
  match driver db_path with
  | Except.error e => Except.error (DatabaseError.connectionError e)
  | Except.ok pool => Except.ok ⟨pool⟩

/-- `Database::execute(&self, query)`: builds the SQL and params, hands
them to the driver (`sqlx::query` + positional binds + `fetch_all` on the
pool, modelled as the `driver` argument), maps a driver failure to
`QueryError`, then decodes all rows, mapping any decode failure to
`QueryError`. -/
def Database.execute (self : Database) (query : QueryBuilder)
    (driver : SqlitePool → String → List String →
      Except String (List (List Column))) :
    Except DatabaseError (List (List (String × PyValue))) :=
  let r := query.build
  match driver self.pool r.1 r.2 with
  | Except.error e => Except.error (DatabaseError.queryError e)
  | Except.ok rows =>
      match decodeRows rows with
      | Except.error e => Except.error (DatabaseError.queryError e)
      | Except.ok recs => Except.ok recs

/-! ## Lemmas about query serialization -/

/-- The filter loop yields the params pushed in order after the accumulator,
and one `"{col} = ?"` condition per filter, in filter order. -/
theorem buildConditions_eq (fs : List (String × String)) (acc : List String) :
    buildConditions fs acc =
      (acc ++ fs.map Prod.snd, fs.map (fun p => p.1 ++ " = ?")) := by
  induction fs generalizing acc with
  | nil => simp [buildConditions]
  | cons p rest ih =>
      obtain ⟨col, val⟩ := p
      simp [buildConditions, ih]

/-- Chaining `where_` calls on the returned clones appends the filters in
call order and leaves table and columns unchanged. -/
theorem chainWhere_eq (d : QueryBuilder) (fs : List (String × String)) :
    chainWhere d fs = ⟨d.table, d.columns, d.where_clauses ++ fs⟩ := by
  induction fs generalizing d with
  | nil => simp [chainWhere]
  | cons p rest ih =>
      obtain ⟨col, val⟩ := p
      simp only [chainWhere, List.foldl_cons] at *
      rw [ih]
      simp [QueryBuilder.where_]

/-- `build` on a descriptor with a nonempty filter list: closed form. -/
theorem build_with_filters (t : String) (cols : List String)
    (fs : List (String × String)) (h : fs ≠ []) :
    QueryBuilder.build ⟨t, cols, fs⟩ =
      ("SELECT " ++ String.intercalate ", " cols ++ " FROM " ++ t ++
        " WHERE " ++
        String.intercalate " AND " (fs.map (fun p => p.1 ++ " = ?")),
       fs.map Prod.snd) := by
  have hne : (⟨t, cols, fs⟩ : QueryBuilder).where_clauses.isEmpty = false := by
    simpa [List.isEmpty_iff] using h
  simp [QueryBuilder.build, hne, buildConditions_eq]

/-- `buildSt` returns the same output as `build` and the receiver unchanged. -/
theorem buildSt_eq (d : QueryBuilder) :
    QueryBuilder.buildSt d = (QueryBuilder.build d, d) := by
  by_cases h : d.where_clauses.isEmpty <;>
    simp [QueryBuilder.buildSt, QueryBuilder.build, h]

/-! ## Claims about query serialization -/

/-- C1 counterexample: the claim predicts `<ci>=?` terms (no spaces around
`=`), so for `select("users",["id","name"]).whereEqual("id","1")
.whereEqual("active","true")` it predicts the SQL text
`SELECT id, name FROM users WHERE id=? AND active=?`; the code emits
`... WHERE id = ? AND active = ?` instead. -/
theorem c1_counterexample :
    (QueryBuilder.build (chainWhere (QueryBuilder.select "users" ["id", "name"])
        [("id", "1"), ("active", "true")])).1 =
      "SELECT id, name FROM users WHERE id = ? AND active = ?" ∧
    (QueryBuilder.build (chainWhere (QueryBuilder.select "users" ["id", "name"])
        [("id", "1"), ("active", "true")])).1 ≠
      "SELECT id, name FROM users WHERE id=? AND active=?" := by
  constructor <;> decide

/-- C1 (amended): for every descriptor with N ≥ 1 filters appended via
`whereEqual` in order (c1,v1)...(cN,vN), `build` yields a WHERE clause with
exactly N terms of the form `<ci> = ?` (a space on each side of `=`),
joined by ` AND ` in insertion order, and params is exactly [v1,...,vN] in
that order, one placeholder per param. -/
theorem c1_filters_amended (t : String) (cols : List String)
    (fs : List (String × String)) (h : fs ≠ []) :
    QueryBuilder.build (chainWhere (QueryBuilder.select t cols) fs) =
      ("SELECT " ++ String.intercalate ", " cols ++ " FROM " ++ t ++
        " WHERE " ++
        String.intercalate " AND " (fs.map (fun p => p.1 ++ " = ?")),
       fs.map Prod.snd) := by
  rw [QueryBuilder.select, chainWhere_eq]
  simpa using build_with_filters t cols fs h

/-- C1 witness: the amended statement instantiated at two filters. -/
theorem c1_filters_amended_witness :
    QueryBuilder.build (chainWhere (QueryBuilder.select "users" ["id", "name"])
        [("id", "1"), ("active", "true")]) =
      ("SELECT id, name FROM users WHERE id = ? AND active = ?",
       ["1", "true"]) :=
  (c1_filters_amended "users" ["id", "name"] [("id", "1"), ("active", "true")]
      (by decide)).trans (by decide)

/-- C2 counterexample: the example descriptor does not serialize to
`SELECT id, name FROM users WHERE id=? AND active=?` — the code puts spaces
around `=`. -/
theorem c2_counterexample :
    QueryBuilder.build (chainWhere (QueryBuilder.select "users" ["id", "name"])
        [("id", "1"), ("active", "true")]) ≠
      ("SELECT id, name FROM users WHERE id=? AND active=?",
       ["1", "true"]) := by
  decide

/-- C2 (amended): `select("users",["id","name"]).whereEqual("id","1")
.whereEqual("active","true")` serializes to exactly
`SELECT id, name FROM users WHERE id = ? AND active = ?` with params
["1","true"]. -/
theorem c2_example_amended :
    QueryBuilder.build (chainWhere (QueryBuilder.select "users" ["id", "name"])
        [("id", "1"), ("active", "true")]) =
      ("SELECT id, name FROM users WHERE id = ? AND active = ?",
       ["1", "true"]) := by
  decide

/-- C4: with no filters, `build` yields exactly `SELECT ` ++ columns
joined by `, ` ++ ` FROM ` ++ table, with no WHERE clause and empty
params. -/
theorem c4_select_no_filters (t : String) (cols : List String) :
    QueryBuilder.build (QueryBuilder.select t cols) =
      ("SELECT " ++ String.intercalate ", " cols ++ " FROM " ++ t, []) := by
  simp [QueryBuilder.select, QueryBuilder.build]

/-- C7: serialization is pure and idempotent — `build` leaves the
descriptor unchanged, and a second call on the resulting descriptor yields
the identical (sqlText, params) output. -/
theorem c7_build_pure_idempotent (d : QueryBuilder) :
    (QueryBuilder.buildSt d).2 = d ∧
    (QueryBuilder.buildSt (QueryBuilder.buildSt d).2).1 =
      (QueryBuilder.buildSt d).1 := by
  simp [buildSt_eq]

/-- C8 counterexample: with empty columns the code yields
`SELECT  FROM users` (two spaces), not `SELECT FROM users`. -/
theorem c8_counterexample :
    (QueryBuilder.build (QueryBuilder.select "users" [])).1 =
      "SELECT  FROM users" ∧
    (QueryBuilder.build (QueryBuilder.select "users" [])).1 ≠
      "SELECT FROM users" := by
  constructor <;> decide

/-- C8 (amended): with empty columns and no filters, `build` succeeds and
yields the degenerate SQL text `SELECT  FROM <table>` (two spaces between
SELECT and FROM) with empty params. -/
theorem c8_empty_columns_amended (t : String) :
    QueryBuilder.build (QueryBuilder.select t []) =
      ("SELECT  FROM " ++ t, []) := by
  rfl

/-- C9: `where_` mutates its receiver in place and returns a clone of the
mutated state: the updated receiver and the returned value are equal, the
receiver contains the appended filter with table and columns unchanged,
and both serialize to identical output. -/
theorem c9_where_mutates_and_clones (d : QueryBuilder) (c v : String) :
    (QueryBuilder.where_ d c v).1 = (QueryBuilder.where_ d c v).2 ∧
    (QueryBuilder.where_ d c v).1.where_clauses =
      d.where_clauses ++ [(c, v)] ∧
    (QueryBuilder.where_ d c v).1.table = d.table ∧
    (QueryBuilder.where_ d c v).1.columns = d.columns ∧
    QueryBuilder.build (QueryBuilder.where_ d c v).1 =
      QueryBuilder.build (QueryBuilder.where_ d c v).2 :=
  ⟨rfl, rfl, rfl, rfl, rfl⟩

/-! ## Lemmas about result decoding -/

/-- Looking up the key just set finds the new value. -/
theorem lookupKey_setItem_self (d : List (String × PyValue)) (k : String)
    (v : PyValue) : lookupKey k (setItem d k v) = Option.some v := by
  induction d with
  | nil => simp [setItem, lookupKey]
  | cons p rest ih =>
      by_cases hp : p.1 = k <;> simp [setItem, lookupKey, hp, ih]

/-- Setting a key leaves every other key's lookup unchanged. -/
theorem lookupKey_setItem_ne (d : List (String × PyValue)) (k k2 : String)
    (v : PyValue) (h : k2 ≠ k) :
    lookupKey k2 (setItem d k v) = lookupKey k2 d := by
  have h2 : ¬ k = k2 := fun hh => h hh.symm
  induction d with
  | nil => simp [setItem, lookupKey, h2]
  | cons p rest ih =>
      by_cases hp : p.1 = k
      · simp [setItem, lookupKey, hp, h2]
      · by_cases hq : p.1 = k2
        · have hq2 : ¬ k2 = k := h
          simp [setItem, lookupKey, hp, hq, hq2]
        · simp [setItem, lookupKey, hp, hq, ih]

/-- `set_item` grows the dict by at most one entry. -/
theorem setItem_length (d : List (String × PyValue)) (k : String)
    (v : PyValue) : (setItem d k v).length ≤ d.length + 1 := by
  induction d with
  | nil => simp [setItem]
  | cons p rest ih =>
      by_cases hp : p.1 = k
      · simp [setItem, hp]
      · simp only [setItem, hp, if_false, List.length_cons]
        omega

/-- `set_item` either keeps the key sequence (update in place) or appends
the one new key. -/
theorem setItem_map_fst (d : List (String × PyValue)) (k : String)
    (v : PyValue) :
    (setItem d k v).map Prod.fst =
      (if k ∈ d.map Prod.fst then d.map Prod.fst
       else d.map Prod.fst ++ [k]) := by
  induction d with
  | nil => simp [setItem]
  | cons p rest ih =>
      by_cases hp : p.1 = k
      · simp [setItem, hp]
      · have hp2 : ¬ k = p.1 := fun hh => hp hh.symm
        by_cases hmem : k ∈ rest.map Prod.fst <;>
          simp [setItem, hp, hp2, hmem, ih]

/-- `set_item` preserves distinctness of the keys. -/
theorem setItem_nodup (d : List (String × PyValue)) (k : String)
    (v : PyValue) (h : (d.map Prod.fst).Nodup) :
    ((setItem d k v).map Prod.fst).Nodup := by
  rw [setItem_map_fst]
  by_cases hmem : k ∈ d.map Prod.fst
  · simpa [hmem] using h
  · simp only [hmem, if_false]
    exact List.Nodup.append h (List.nodup_singleton k)
      (by simpa [List.disjoint_singleton] using hmem)

/-- The row loop produces at most one dict entry per processed column. -/
theorem decodeRowAux_length (row : List Column) :
    ∀ dict r, decodeRowAux dict row = Except.ok r →
      r.length ≤ dict.length + row.length := by
  induction row with
  | nil =>
      intro dict r h
      simp [decodeRowAux] at h
      simp [← h]
  | cons c rest ih =>
      intro dict r h
      cases hc : decodeCell c with
      | error e => simp [decodeRowAux, hc] at h
      | ok v =>
          simp only [decodeRowAux, hc] at h
          have h1 := ih (setItem dict c.name v) r h
          have h2 := setItem_length dict c.name v
          simp only [List.length_cons]
          omega

/-- The row loop keeps the dict keys distinct. -/
theorem decodeRowAux_nodup (row : List Column) :
    ∀ dict r, (dict.map Prod.fst).Nodup →
      decodeRowAux dict row = Except.ok r → (r.map Prod.fst).Nodup := by
  induction row with
  | nil =>
      intro dict r hnd h
      simp [decodeRowAux] at h
      simpa [← h] using hnd
  | cons c rest ih =>
      intro dict r hnd h
      cases hc : decodeCell c with
      | error e => simp [decodeRowAux, hc] at h
      | ok v =>
          simp only [decodeRowAux, hc] at h
          exact ih (setItem dict c.name v) r (setItem_nodup dict c.name v hnd) h

/-- Last write wins: after the row loop, each key holds the decoded value
of the last processed column with that name; a key no column wrote is
unchanged from the initial dict. -/
theorem decodeRowAux_last (row : List Column) :
    ∀ dict r, decodeRowAux dict row = Except.ok r → ∀ k,
      (∀ c, row.reverse.find? (fun x => x.name == k) = Option.some c →
        ∃ v, decodeCell c = Except.ok v ∧ lookupKey k r = Option.some v) ∧
      (row.reverse.find? (fun x => x.name == k) = Option.none →
        lookupKey k r = lookupKey k dict) := by
  induction row with
  | nil =>
      intro dict r h k
      simp [decodeRowAux] at h
      subst h
      exact ⟨fun c hc => by simp at hc, fun _ => rfl⟩
  | cons c rest ih =>
      intro dict r h k
      cases hc : decodeCell c with
      | error e => simp [decodeRowAux, hc] at h
      | ok v =>
          simp only [decodeRowAux, hc] at h
          have IH := ih (setItem dict c.name v) r h k
          constructor
          · intro c2 hc2
            rw [List.reverse_cons, List.find?_append] at hc2
            cases hfind : rest.reverse.find? (fun x => x.name == k) with
            | some c3 =>
                rw [hfind] at hc2
                simp [Option.or] at hc2
                subst hc2
                exact IH.1 c3 hfind
            | none =>
                rw [hfind] at hc2
                by_cases hcn : c.name = k
                · simp only [Option.or, List.find?, hcn, beq_self_eq_true,
                    Option.some.injEq] at hc2
                  subst hc2
                  have hlk := IH.2 hfind
                  refine ⟨v, hc, ?_⟩
                  rw [hlk, hcn, lookupKey_setItem_self]
                · have hcn2 : (c.name == k) = false := by simp [hcn]
                  simp [Option.or, List.find?, hcn2] at hc2
          · intro hc2
            rw [List.reverse_cons, List.find?_append] at hc2
            cases hfind : rest.reverse.find? (fun x => x.name == k) with
            | some c3 => simp [hfind, Option.or] at hc2
            | none =>
                by_cases hcn : c.name = k
                · rw [hfind] at hc2
                  simp [Option.or, List.find?, hcn] at hc2
                · have hne : k ≠ c.name := fun hh => hcn hh.symm
                  rw [IH.2 hfind, lookupKey_setItem_ne dict c.name k v hne]

/-- The outer loop decodes every row or none: on success the record count
equals the row count. -/
theorem decodeRows_length (rows : List (List Column)) :
    ∀ recs, decodeRows rows = Except.ok recs →
      recs.length = rows.length := by
  induction rows with
  | nil =>
      intro recs h
      simp [decodeRows] at h
      simp [← h]
  | cons row rest ih =>
      intro recs h
      cases hr : decodeRow row with
      | error e => simp [decodeRows, hr] at h
      | ok r =>
          cases hrest : decodeRows rest with
          | error e => simp [decodeRows, hr, hrest] at h
          | ok rs =>
              simp only [decodeRows, hr, hrest, Except.ok.injEq] at h
              subst h
              simp [ih rs hrest]

/-! ## Claims about connection, execution and decoding -/

/-- C3: the decode branch is chosen by the declared type name — TEXT gives
an optional string, INTEGER an optional 64-bit integer, REAL an optional
double, BLOB an optional byte sequence, with SQL NULL mapping to `None` in
each of the four cases, and any other declared type name always decoding
to `None` regardless of the stored value. -/
theorem c3_decode_branch_by_type (n u : String) (s : String) (i : Int)
    (r : Float) (b : List UInt8) (w : SqlValue) :
    decodeCell ⟨n, "TEXT", SqlValue.text s⟩ = Except.ok (PyValue.str s) ∧
    decodeCell ⟨n, "TEXT", SqlValue.null⟩ = Except.ok PyValue.none ∧
    decodeCell ⟨n, "INTEGER", SqlValue.int i⟩ = Except.ok (PyValue.int i) ∧
    decodeCell ⟨n, "INTEGER", SqlValue.null⟩ = Except.ok PyValue.none ∧
    decodeCell ⟨n, "REAL", SqlValue.real r⟩ = Except.ok (PyValue.float r) ∧
    decodeCell ⟨n, "REAL", SqlValue.null⟩ = Except.ok PyValue.none ∧
    decodeCell ⟨n, "BLOB", SqlValue.blob b⟩ = Except.ok (PyValue.bytes b) ∧
    decodeCell ⟨n, "BLOB", SqlValue.null⟩ = Except.ok PyValue.none ∧
    (u ≠ "TEXT" → u ≠ "INTEGER" → u ≠ "REAL" → u ≠ "BLOB" →
      decodeCell ⟨n, u, w⟩ = Except.ok PyValue.none) := by
  refine ⟨rfl, rfl, rfl, rfl, rfl, rfl, rfl, rfl, ?_⟩
  intro h1 h2 h3 h4
  unfold decodeCell
  split <;> simp_all

/-- C3 witness: an unknown declared type (`NUMERIC`) with a non-null
stored value decodes to `None`. -/
theorem c3_decode_branch_by_type_witness :
    decodeCell ⟨"col", "NUMERIC", SqlValue.text "5"⟩ = Except.ok PyValue.none :=
  (c3_decode_branch_by_type "col" "NUMERIC" "x" 0 0 []
      (SqlValue.text "5")).2.2.2.2.2.2.2.2
    (by decide) (by decide) (by decide) (by decide)

/-- C5: `execute` is all-or-nothing — it returns either a single
`QueryError` carrying the underlying message, or the complete decoded
result sequence, one record per fetched row; never a prefix. -/
theorem c5_execute_all_or_nothing (db : Database) (q : QueryBuilder)
    (driver : SqlitePool → String → List String →
      Except String (List (List Column))) :
    (∃ msg, Database.execute db q driver =
        Except.error (DatabaseError.queryError msg)) ∨
    (∃ rows recs,
        driver db.pool (QueryBuilder.build q).1 (QueryBuilder.build q).2 =
          Except.ok rows ∧
        Database.execute db q driver = Except.ok recs ∧
        recs.length = rows.length) := by
  cases hd : driver db.pool (QueryBuilder.build q).1 (QueryBuilder.build q).2 with
  | error e =>
      left
      exact ⟨e, by simp [Database.execute, hd]⟩
  | ok rows =>
      cases hr : decodeRows rows with
      | error e =>
          left
          exact ⟨e, by simp [Database.execute, hd, hr]⟩
      | ok recs2 =>
          right
          exact ⟨rows, recs2, rfl, by simp [Database.execute, hd, hr],
            decodeRows_length rows recs2 hr⟩

/-- C6: `connect` returns either a handle wrapping the pool the driver
opened, or a `ConnectionError` carrying the underlying driver message; no
in-between state. -/
theorem c6_connect_handle_or_error (path : String)
    (driver : String → Except String SqlitePool) :
    (∃ e, driver path = Except.error e ∧
        Database.connect path driver =
          Except.error (DatabaseError.connectionError e)) ∨
    (∃ p, driver path = Except.ok p ∧
        Database.connect path driver = Except.ok ⟨p⟩) := by
  cases hd : driver path with
  | error e => exact Or.inl ⟨e, rfl, by simp [Database.connect, hd]⟩
  | ok p => exact Or.inr ⟨p, rfl, by simp [Database.connect, hd]⟩

/-- C10: with duplicate column names in a row, the assembled record keeps
one entry per name (its keys are distinct), holding the decoded value of
the last column with that name in column order, and the record has at most
as many entries as the row has columns. -/
theorem c10_duplicate_names_last_wins (row : List Column)
    (r : List (String × PyValue)) (h : decodeRow row = Except.ok r) :
    (r.map Prod.fst).Nodup ∧
    r.length ≤ row.length ∧
    ∀ k c, row.reverse.find? (fun x => x.name == k) = Option.some c →
      ∃ v, decodeCell c = Except.ok v ∧ lookupKey k r = Option.some v := by
  refine ⟨decodeRowAux_nodup row [] r (by simp) h, ?_, ?_⟩
  · simpa using decodeRowAux_length row [] r h
  · intro k c hc
    exact (decodeRowAux_last row [] r h k).1 c hc

/-- C10 witness: a row with two columns both named `a` decodes to a
one-entry record holding the second column's value — strictly fewer
entries than columns. -/
theorem c10_duplicate_names_last_wins_witness :
    decodeRow [⟨"a", "TEXT", SqlValue.text "x"⟩,
               ⟨"a", "TEXT", SqlValue.text "y"⟩] =
      Except.ok [("a", PyValue.str "y")] ∧
    ([("a", PyValue.str "y")] : List (String × PyValue)).length ≤
      ([⟨"a", "TEXT", SqlValue.text "x"⟩,
        ⟨"a", "TEXT", SqlValue.text "y"⟩] : List Column).length ∧
    ([("a", PyValue.str "y")] : List (String × PyValue)).length <
      ([⟨"a", "TEXT", SqlValue.text "x"⟩,
        ⟨"a", "TEXT", SqlValue.text "y"⟩] : List Column).length ∧
    (∃ v, decodeCell ⟨"a", "TEXT", SqlValue.text "y"⟩ = Except.ok v ∧
      lookupKey "a" [("a", PyValue.str "y")] = Option.some v) :=
  ⟨rfl,
   (c10_duplicate_names_last_wins
      [⟨"a", "TEXT", SqlValue.text "x"⟩, ⟨"a", "TEXT", SqlValue.text "y"⟩]
      [("a", PyValue.str "y")] rfl).2.1,
   by decide,
   (c10_duplicate_names_last_wins
      [⟨"a", "TEXT", SqlValue.text "x"⟩, ⟨"a", "TEXT", SqlValue.text "y"⟩]
      [("a", PyValue.str "y")] rfl).2.2 "a"
      ⟨"a", "TEXT", SqlValue.text "y"⟩ rfl⟩
